import Mathlib

/-!
Shallow embedding of the solana-arbitrage-bot core (src/solana-arbitrage-bot/src).

Conventions of the embedding:
* Rust `f64` values are modelled as exact rationals `ℚ`; the arithmetic
  expressions are transcribed literally from the source.
* Rust `u64` values are modelled as `ℕ`; the cast `as u64` from `f64` is
  modelled by `f64ToU64` (saturating: negative values clamp to 0, values above
  `2^64 - 1` clamp to `2^64 - 1`, otherwise truncation toward zero).
* `Result<T, ArbitrageError>` is modelled as `Except ArbitrageError T`.
* `Pubkey` is modelled as `ℕ` (an opaque identifier with decidable equality).
* Unix timestamps (`i64`) are modelled as `ℤ`; the ambient clock
  (`SystemTime::now()`) is passed explicitly as a `now : ℤ` parameter.
-/

/-- `Pubkey` from `solana_sdk`, modelled as an opaque identifier. -/
abbrev Pubkey := Nat

/-- `types/common.rs`: error enum `ArbitrageError` (variants used by the core). -/
inductive ArbitrageError where
  | MarketError (msg : String)
  | InsufficientFunds (msg : String)
  | FlashLoanError (msg : String)
  | TransactionError (msg : String)
  | SecurityViolation (msg : String)
  | ConfigError (msg : String)
  | NetworkError (msg : String)
  | MevAttackDetected (msg : String)
  deriving Repr, DecidableEq

/-- `types/common.rs`: `ArbitrageResult<T>` alias. -/
abbrev ArbitrageResult (α : Type) := Except ArbitrageError α

deriving instance DecidableEq for Except

/-- `types/common.rs`: `Token`. -/
structure Token where
  address : Pubkey
  symbol : String
  decimals : Nat
  deriving Repr, DecidableEq

/-- `types/common.rs`: `TokenPair`. -/
structure TokenPair where
  base_token : Token
  quote_token : Token
  deriving Repr, DecidableEq

/-- `types/common.rs`: `TradeSide`. -/
inductive TradeSide where
  | Buy
  | Sell
  deriving Repr, DecidableEq

/-- `types/common.rs`: `TradeStep`. -/
structure TradeStep where
  market : Pubkey
  side : TradeSide
  amount : Nat
  price : ℚ
  deriving Repr, DecidableEq

/-- `types/common.rs`: `MarketState`.

The field `liquidity` is not in the source struct; it models the method
`MarketState::get_liquidity()` called throughout the strategies but defined
nowhere under `src/`.  Modelled from the spec: the Venue Adapter capability
`liquidity(market) -> amount` is fallible, so the field is an `Option`. -/
structure MarketState where
  market_address : Pubkey
  base_token : Token
  quote_token : Token
  best_bid : ℚ
  best_ask : ℚ
  last_update : Int
  liquidity : Option Nat
  deriving Repr, DecidableEq

/-- `MarketState::get_liquidity()`.  Modelled from the spec: missing from
`src/`; reads the modelled `liquidity` field, failing like a venue-adapter
liquidity lookup when no value is available. -/
def MarketState.get_liquidity (ms : MarketState) : ArbitrageResult Nat :=
  match ms.liquidity with
  | some l => .ok l
  | none => .error (.MarketError "Liquidity not available")

/-- `MarketState::token_pair()`.  Modelled from the spec (missing from `src/`,
called by the strategies): pairs the market's base and quote tokens. -/
def MarketState.token_pair (ms : MarketState) : TokenPair :=
  { base_token := ms.base_token, quote_token := ms.quote_token }

/-- `types/common.rs`: `ArbitrageOpportunity`. -/
structure ArbitrageOpportunity where
  source_market : Pubkey
  target_market : Pubkey
  token_pair : TokenPair
  profit_percentage : ℚ
  required_amount : Nat
  estimated_profit : Nat
  route : List TradeStep
  timestamp : Int
  deriving Repr, DecidableEq

/-- `types/common.rs`: `ExecutionResult`. -/
structure ExecutionResult where
  success : Bool
  profit_realized : Option Nat
  error : Option String
  transaction_signature : Option String
  execution_time_ms : Nat
  deriving Repr, DecidableEq

/-- `types/common.rs`: `FlashLoanProtocol`. -/
inductive FlashLoanProtocol where
  | Solend
  | Port
  | Marinade
  deriving Repr, DecidableEq

/-- `types/common.rs`: `FlashLoanParams`. -/
structure FlashLoanParams where
  token : Token
  amount : Nat
  protocol : FlashLoanProtocol
  deriving Repr, DecidableEq

/-! ### Settings (`config/settings.rs`)

Only the fields read by the embedded core functions are retained; the omitted
fields (network endpoints, monitoring, quantum security, transaction guards)
are never read by the functions the claims are about. -/

/-- `config/settings.rs`: `MarketSettings` (fields read by the core). -/
structure MarketSettings where
  min_liquidity : Nat
  max_spread : ℚ
  deriving Repr, DecidableEq

/-- `config/settings.rs`: `ExecutionSettings` (fields read by the core). -/
structure ExecutionSettings where
  min_profit_threshold : ℚ
  max_position_size : Nat
  flash_loan_enabled : Bool
  deriving Repr, DecidableEq

/-- `config/settings.rs`: `RiskSettings` (fields read by the core). -/
structure RiskSettings where
  max_loss_threshold : ℚ
  slippage_tolerance : ℚ
  deriving Repr, DecidableEq

/-- `config/settings.rs`: `TradingSettings`. -/
structure TradingSettings where
  markets : MarketSettings
  execution : ExecutionSettings
  risk : RiskSettings
  deriving Repr, DecidableEq

/-- `config/settings.rs`: `MevProtectionSettings`. -/
structure MevProtectionSettings where
  enabled : Bool
  sandwich_detection : Bool
  frontrunning_detection : Bool
  backrunning_detection : Bool
  deriving Repr, DecidableEq

/-- `config/settings.rs`: `SecuritySettings` (fields read by the core). -/
structure SecuritySettings where
  mev_protection : MevProtectionSettings
  deriving Repr, DecidableEq

/-- `config/settings.rs`: `Settings` (fields read by the core). -/
structure Settings where
  trading : TradingSettings
  security : SecuritySettings
  deriving Repr, DecidableEq

/-- `config/settings.rs`: `impl Default for Settings` (the retained fields). -/
def Settings.default : Settings :=
  { trading :=
      { markets := { min_liquidity := 1000000, max_spread := 5/100 }
        execution :=
          { min_profit_threshold := 1/100
            max_position_size := 1000000000
            flash_loan_enabled := true }
        risk := { max_loss_threshold := -2/100, slippage_tolerance := 1/100 } }
    security :=
      { mev_protection :=
          { enabled := true
            sandwich_detection := true
            frontrunning_detection := true
            backrunning_detection := true } } }

/-- Rust's saturating cast `f64 as u64`: negative values become `0`, values
above `u64::MAX` become `u64::MAX`, otherwise truncation toward zero. -/
def f64ToU64 (x : ℚ) : Nat :=
  if x < 0 then 0 else min x.floor.toNat (2 ^ 64 - 1)

/-! ### Profit calculator (`core/profit_calculator.rs`) -/

namespace ProfitCalculator

/-- `profit_calculator.rs` lines 182-191: `get_market_state`. -/
def get_market_state (market : Pubkey) (market_states : List MarketState) :
    ArbitrageResult MarketState :=
  match market_states.find? (fun state => state.market_address == market) with
  | some state => .ok state
  | none => .error (.MarketError "Market state not found")

/-- `profit_calculator.rs` lines 146-162: `calculate_slippage`.  The source
always returns `Ok`, so the embedding is a plain function. -/
def calculate_slippage (s : Settings) (amount : ℚ) (_market_state : MarketState) : ℚ :=
  let base_liquidity : ℚ := 100000
  let slippage_factor : ℚ := 1/10
  let normalized_amount := amount / base_liquidity
  let slippage := normalized_amount * slippage_factor
  let max_slippage := s.trading.risk.slippage_tolerance
  min slippage max_slippage

/-- `profit_calculator.rs` lines 193-196: `get_market_fee_rate`. -/
def get_market_fee_rate (_market_state : MarketState) : ℚ := 3/1000

/-- `profit_calculator.rs` lines 104-123: `calculate_buy_profit`. -/
def calculate_buy_profit (s : Settings) (input_amount price : ℚ)
    (market_state : MarketState) : ℚ × ℚ :=
  let slippage := calculate_slippage s input_amount market_state
  let effective_price := price * (1 + slippage)
  let base_output := input_amount / effective_price
  let fee_rate := get_market_fee_rate market_state
  let output_after_fees := base_output * (1 - fee_rate)
  let profit := output_after_fees * market_state.best_bid - input_amount
  (profit, output_after_fees)

/-- `profit_calculator.rs` lines 125-144: `calculate_sell_profit`. -/
def calculate_sell_profit (s : Settings) (input_amount price : ℚ)
    (market_state : MarketState) : ℚ × ℚ :=
  let slippage := calculate_slippage s input_amount market_state
  let effective_price := price * (1 - slippage)
  let base_output := input_amount * effective_price
  let fee_rate := get_market_fee_rate market_state
  let output_after_fees := base_output * (1 - fee_rate)
  let profit := output_after_fees - input_amount * market_state.best_ask
  (profit, output_after_fees)

/-- `profit_calculator.rs` lines 45-63: `calculate_step_profit`. -/
def calculate_step_profit (s : Settings) (step : TradeStep) (input_amount : ℚ)
    (market_states : List MarketState) : ArbitrageResult (ℚ × ℚ) := do
  let market_state ← get_market_state step.market market_states
  match step.side with
  | .Buy => .ok (calculate_buy_profit s input_amount step.price market_state)
  | .Sell => .ok (calculate_sell_profit s input_amount step.price market_state)

/-- `profit_calculator.rs` lines 164-168: `calculate_trading_fee`. -/
def calculate_trading_fee (step : TradeStep) : ℚ :=
  let fee_rate : ℚ := 3/1000
  (step.amount : ℚ) * fee_rate

/-- `profit_calculator.rs` lines 170-174: `calculate_flash_loan_fee`. -/
def calculate_flash_loan_fee (amount : Nat) : ℚ :=
  let fee_rate : ℚ := 9/10000
  (amount : ℚ) * fee_rate

/-- `profit_calculator.rs` lines 176-180: `calculate_protocol_fees`. -/
def calculate_protocol_fees (opportunity : ArbitrageOpportunity) : ℚ :=
  let base_fee : ℚ := 1/1000
  (opportunity.required_amount : ℚ) * base_fee

/-- Sum of the per-step trading fees of a route (the first loop of
`calculate_total_fees`). -/
def sum_trading_fees (route : List TradeStep) : ℚ :=
  route.foldl (fun acc step => acc + calculate_trading_fee step) 0

/-- `profit_calculator.rs` lines 85-102: `calculate_total_fees`.  All fee
helpers return `Ok` in the source, so the embedding is a plain function. -/
def calculate_total_fees (opportunity : ArbitrageOpportunity) : ℚ :=
  let total_fees := sum_trading_fees opportunity.route
  let total_fees :=
    if 2 < opportunity.route.length then
      total_fees + calculate_flash_loan_fee opportunity.required_amount
    else total_fees
  total_fees + calculate_protocol_fees opportunity

/-- `profit_calculator.rs` lines 65-83: `estimate_gas_costs`. -/
def estimate_gas_costs (s : Settings) (opportunity : ArbitrageOpportunity) : Nat :=
  let total_cost := 5000
  let total_cost := total_cost + opportunity.route.length * 1000
  let total_cost :=
    if 2 < opportunity.route.length then total_cost + 2000 else total_cost
  if s.security.mev_protection.enabled then total_cost + 1000 else total_cost

/-- `profit_calculator.rs` lines 21-43: `calculate_total_profit`. -/
def calculate_total_profit (s : Settings) (opportunity : ArbitrageOpportunity)
    (market_states : List MarketState) : ArbitrageResult ℚ := do
  let acc ← opportunity.route.foldlM
    (fun (acc : ℚ × ℚ) step => do
      let (profit, new_amount) ← calculate_step_profit s step acc.2 market_states
      .ok (acc.1 + profit, new_amount))
    ((0 : ℚ), (opportunity.required_amount : ℚ))
  let fees := calculate_total_fees opportunity
  let gas_costs := estimate_gas_costs s opportunity
  .ok (acc.1 - (fees + (gas_costs : ℚ)))

/-- `profit_calculator.rs` lines 219-236: `validate_risk_parameters`. -/
def validate_risk_parameters (s : Settings) (opportunity : ArbitrageOpportunity)
    (profit : ℚ) : ArbitrageResult Bool :=
  if s.trading.execution.max_position_size < opportunity.required_amount then
    .ok false
  else
    let risk_ratio := profit / (opportunity.required_amount : ℚ)
    if risk_ratio < s.trading.risk.max_loss_threshold then .ok false
    else .ok true

/-- `profit_calculator.rs` lines 198-217: `is_profitable`. -/
def is_profitable (s : Settings) (opportunity : ArbitrageOpportunity)
    (market_states : List MarketState) : ArbitrageResult Bool := do
  let total_profit ← calculate_total_profit s opportunity market_states
  let min_profit_threshold := s.trading.execution.min_profit_threshold
  if total_profit < min_profit_threshold then .ok false
  else do
    let ok ← validate_risk_parameters s opportunity total_profit
    if !ok then .ok false else .ok true

end ProfitCalculator

/-- The value of `f64::MAX`, exactly `(2 - 2 ^ (-52)) * 2 ^ 1023`. -/
def f64MAX : ℚ := (2 ^ 53 - 1) * 2 ^ 971

/-! ### Transaction builder (`core/transaction_builder.rs`) -/

/-- Solana `Instruction` values.  The leaf constructors of the source
(`create_market_buy_instruction`, `create_market_sell_instruction`,
`create_settlement_instruction`, `create_flash_loan_instruction`,
`create_repayment_instruction` and the three MEV-protection builders) are
`unimplemented!` stubs.  Modelled from the spec: each emits one opaque
venue/loan instruction, represented here by a constructor tagged with its kind
and the arguments the source passes to it. -/
inductive Instruction where
  | flashLoan (params : FlashLoanParams)
  | marketBuy (market : Pubkey) (amount : Nat) (price : ℚ)
  | marketSell (market : Pubkey) (amount : Nat) (price : ℚ)
  | settlement (step : TradeStep)
  | repayment (amount : Nat)
  | frontrunningProtection
  | backrunningProtection
  | sandwichProtection
  deriving Repr, DecidableEq

/-- Is this an instruction produced by `create_flash_loan_instruction`? -/
def Instruction.isFlashLoan : Instruction → Bool
  | .flashLoan _ => true
  | _ => false

/-- Is this an instruction produced by `create_repayment_instruction`? -/
def Instruction.isRepayment : Instruction → Bool
  | .repayment _ => true
  | _ => false

namespace TransactionBuilder

/-- `transaction_builder.rs` lines 250-253: `select_flash_loan_protocol`. -/
def select_flash_loan_protocol : ArbitrageResult FlashLoanProtocol :=
  .ok .Solend

/-- `transaction_builder.rs` lines 255-259: `calculate_flash_loan_fee`
(returns a `u64`, so the `f64` product is cast back). -/
def calculate_flash_loan_fee (amount : Nat) : Nat :=
  let fee_rate : ℚ := 9/10000
  f64ToU64 ((amount : ℚ) * fee_rate)

/-- `transaction_builder.rs` lines 58-75: `build_flash_loan_instructions`. -/
def build_flash_loan_instructions (opportunity : ArbitrageOpportunity) :
    ArbitrageResult (List Instruction) := do
  let protocol ← select_flash_loan_protocol
  let flash_loan_params : FlashLoanParams :=
    { token := opportunity.token_pair.base_token
      amount := opportunity.required_amount
      protocol := protocol }
  .ok [.flashLoan flash_loan_params]

/-- `transaction_builder.rs` lines 214-233: `add_mev_protection` (always `Ok`
in the source since the per-kind builders are modelled as pure). -/
def add_mev_protection (s : Settings) (_step : TradeStep) : List Instruction :=
  (if s.security.mev_protection.frontrunning_detection then
    [Instruction.frontrunningProtection] else []) ++
  (if s.security.mev_protection.backrunning_detection then
    [Instruction.backrunningProtection] else []) ++
  (if s.security.mev_protection.sandwich_detection then
    [Instruction.sandwichProtection] else [])

/-- `transaction_builder.rs` lines 100-118 and 120-138:
`build_buy_instructions` / `build_sell_instructions`, merged on the trade
side exactly as `build_trade_instructions` dispatches them. -/
def build_side_instructions (step : TradeStep) : List Instruction :=
  match step.side with
  | .Buy => [.marketBuy step.market step.amount step.price, .settlement step]
  | .Sell => [.marketSell step.market step.amount step.price, .settlement step]

/-- `transaction_builder.rs` lines 77-98: `build_trade_instructions`. -/
def build_trade_instructions (s : Settings) (step : TradeStep) :
    ArbitrageResult (List Instruction) :=
  let instructions := build_side_instructions step
  if s.security.mev_protection.enabled then
    .ok (instructions ++ add_mev_protection s step)
  else .ok instructions

/-- `transaction_builder.rs` lines 140-154: `build_repayment_instructions`. -/
def build_repayment_instructions (opportunity : ArbitrageOpportunity) :
    ArbitrageResult (List Instruction) :=
  let flash_loan_fee := calculate_flash_loan_fee opportunity.required_amount
  let repayment_amount := opportunity.required_amount + flash_loan_fee
  .ok [.repayment repayment_amount]

/-- `transaction_builder.rs` lines 33-56: `build_arbitrage_transaction`.
The final `build_and_sign_transaction` step wraps the instruction vector in a
signed solana transaction without touching its order; the transaction is
modelled by its instruction list. -/
def build_arbitrage_transaction (s : Settings) (opportunity : ArbitrageOpportunity) :
    ArbitrageResult (List Instruction) := do
  let instructions : List Instruction := []
  let instructions ←
    if 2 < opportunity.route.length then do
      let pre ← build_flash_loan_instructions opportunity
      .ok (instructions ++ pre)
    else .ok instructions
  let instructions ← opportunity.route.foldlM
    (fun acc step => do
      let tr ← build_trade_instructions s step
      .ok (acc ++ tr))
    instructions
  let instructions ←
    if 2 < opportunity.route.length then do
      let post ← build_repayment_instructions opportunity
      .ok (instructions ++ post)
    else .ok instructions
  .ok instructions

end TransactionBuilder

/-! ### Venue registry (`dex/mod.rs`) -/

/-- A venue adapter of the registry.  Modelled from the spec: the five adapter
modules (`serum.rs`, `orca.rs`, `raydium.rs`, `jupiter.rs`, `openbook.rs`) are
not under `src/`; per the spec each exposes fallible `best_price` (bid, ask)
and `liquidity` capabilities plus a market lookup for a token pair
(`find_market`, an `unimplemented!` stub in `dex/mod.rs`).  Each capability is
modelled by its (optional) result for the token pair under consideration. -/
structure DexVenue where
  name : String
  find_market_result : Option Pubkey
  best_price_result : Option (ℚ × ℚ)
  liquidity_result : Option Nat
  deriving Repr, DecidableEq

namespace DexRegistry

/-- `dex/mod.rs` lines 48-86: `get_best_execution_venue`.  The registry holds
five fixed adapters; the `vec![...]` of adapters is the `venues` list.  The
running `best_price` starts at `f64::MAX` and a venue is recorded only when
the strict price comparison and then the depth check pass. -/
def get_best_execution_venue (venues : List DexVenue) (amount : Nat)
    (is_buy : Bool) : ArbitrageResult (DexVenue × ℚ) :=
  let step := fun (acc : ℚ × Option DexVenue) (dex : DexVenue) =>
    match dex.find_market_result with
    | none => acc
    | some _market =>
      match dex.best_price_result with
      | none => acc
      | some (bid, ask) =>
        let price := if is_buy then ask else bid
        if (is_buy ∧ price < acc.1) ∨ (¬is_buy ∧ price > acc.1) then
          match dex.liquidity_result with
          | none => acc
          | some liquidity =>
            if amount ≤ liquidity then (price, some dex) else acc
        else acc
  let r := venues.foldl step (f64MAX, none)
  match r.2 with
  | some dex => .ok (dex, r.1)
  | none => .error (.MarketError "No suitable execution venue found")

/-- `dex/mod.rs` lines 164-168: `TradeDirection`. -/
inductive TradeDirection where
  | Market1ToMarket2
  | Market2ToMarket1
  deriving Repr, DecidableEq

/-- `dex/mod.rs` lines 150-154: `MarketInfo`.  The boxed adapter is modelled
by the (fallible) result of its `get_best_price` call for this market,
following the spec's Venue Adapter interface (the adapter modules are not
under `src/`). -/
structure MarketInfo where
  address : Pubkey
  best_price_result : Option (ℚ × ℚ)
  deriving Repr, DecidableEq

/-- `dex/mod.rs` lines 156-162: `CrossDexOpportunity`. -/
structure CrossDexOpportunity where
  source_market : MarketInfo
  target_market : MarketInfo
  profit_percentage : ℚ
  direction : TradeDirection
  deriving Repr, DecidableEq

/-- `dex/mod.rs` lines 120-137: `calculate_cross_dex_profit` (the two `?`
operators on the adapters' `get_best_price` propagate their failure). -/
def calculate_cross_dex_profit (market1 market2 : MarketInfo) :
    ArbitrageResult (ℚ × TradeDirection) :=
  match market1.best_price_result with
  | none => .error (.MarketError "price unavailable")
  | some (bid1, ask1) =>
    match market2.best_price_result with
    | none => .error (.MarketError "price unavailable")
    | some (bid2, ask2) =>
      let profit1 := (bid2 / ask1 - 1) * 100
      let profit2 := (bid1 / ask2 - 1) * 100
      if profit1 > profit2 then .ok (profit1, .Market1ToMarket2)
      else .ok (profit2, .Market2ToMarket1)

/-- The index pairs `i < j` visited by the nested loops of
`get_cross_dex_opportunities`, as the corresponding element pairs. -/
def ordered_pairs : List MarketInfo → List (MarketInfo × MarketInfo)
  | [] => []
  | m :: rest => rest.map (fun n => (m, n)) ++ ordered_pairs rest

/-- `dex/mod.rs` lines 88-118: `get_cross_dex_opportunities`.  The markets for
the token pair come from `get_all_markets` (an `unimplemented!` stub), here
the `markets` parameter.  A failing price fetch skips the pair
(`if let Ok(...)`); the function itself always returns `Ok`. -/
def get_cross_dex_opportunities (markets : List MarketInfo)
    (min_profit_percentage : ℚ) : List CrossDexOpportunity :=
  (ordered_pairs markets).foldl
    (fun acc pair =>
      match calculate_cross_dex_profit pair.1 pair.2 with
      | .ok (profit, direction) =>
        if profit ≥ min_profit_percentage then
          acc ++ [{ source_market := pair.1, target_market := pair.2,
                    profit_percentage := profit, direction := direction }]
        else acc
      | .error _ => acc)
    []

end DexRegistry

/-! ### Strategies (`strategies/`) -/

/-- The sort applied at the end of each strategy's collection loop:
`opportunities.sort_by(|a, b| b.profit_percentage.partial_cmp(&a.profit_percentage).unwrap())`,
a stable sort in descending order of `profit_percentage` (total on `ℚ`). -/
def sort_by_profit_desc (l : List ArbitrageOpportunity) : List ArbitrageOpportunity :=
  l.mergeSort (fun a b => decide (b.profit_percentage ≤ a.profit_percentage))

namespace JitLiquidityStrategy

/-- `jit_liquidity.rs` lines 187-192: `get_market_state` (the strategy's
`market_states` vector is the `market_states` parameter). -/
def get_market_state (market_states : List MarketState) (market : Pubkey) :
    ArbitrageResult MarketState :=
  match market_states.find? (fun state => state.market_address == market) with
  | some state => .ok state
  | none => .error (.MarketError "Market state not found")

/-- `jit_liquidity.rs` lines 194-198: `is_volatility_suitable` (placeholder
returning `Ok(true)` in the source). -/
def is_volatility_suitable (_market_state : MarketState) : ArbitrageResult Bool :=
  .ok true

/-- `jit_liquidity.rs` lines 89-110: `is_market_suitable_for_jit`. -/
def is_market_suitable_for_jit (s : Settings) (market_state : MarketState) :
    ArbitrageResult Bool := do
  let liquidity ← market_state.get_liquidity
  if liquidity < s.trading.markets.min_liquidity then .ok false
  else
    let spread := (market_state.best_ask - market_state.best_bid) / market_state.best_bid
    if spread > s.trading.markets.max_spread then .ok false
    else do
      let vol ← is_volatility_suitable market_state
      if !vol then .ok false
      else .ok true

/-- `jit_liquidity.rs` lines 200-207: `calculate_size_from_depth` (placeholder
returning the configured max position size). -/
def calculate_size_from_depth (s : Settings) (_market_state : MarketState) :
    ArbitrageResult Nat :=
  .ok s.trading.execution.max_position_size

/-- `jit_liquidity.rs` lines 112-133: `calculate_optimal_trade_size`. -/
def calculate_optimal_trade_size (s : Settings) (market_state : MarketState) :
    ArbitrageResult Nat := do
  let base_liquidity ← market_state.get_liquidity
  let optimal_size ← calculate_size_from_depth s market_state
  let risk_adjusted_size := min optimal_size s.trading.execution.max_position_size
  let market_adjusted_size := min risk_adjusted_size (base_liquidity / 10)
  .ok market_adjusted_size

/-- `jit_liquidity.rs` lines 229-237: `estimate_slippage` (placeholder
returning 0.1%). -/
def estimate_slippage (_trade_size : Nat) (_market_state : MarketState) : ℚ :=
  1/1000

/-- `jit_liquidity.rs` lines 209-217: `calculate_entry_price`. -/
def calculate_entry_price (market_state : MarketState) (trade_size : Nat) : ℚ :=
  let base_price := market_state.best_ask
  let slippage := estimate_slippage trade_size market_state
  base_price * (1 + slippage)

/-- `jit_liquidity.rs` lines 219-227: `calculate_exit_price`. -/
def calculate_exit_price (market_state : MarketState) (trade_size : Nat) : ℚ :=
  let base_price := market_state.best_bid
  let slippage := estimate_slippage trade_size market_state
  base_price * (1 - slippage)

/-- `jit_liquidity.rs` lines 239-252: `calculate_total_fees`. -/
def calculate_total_fees (trade_size : Nat) (_market_state : MarketState) : ℚ :=
  let trading_fee_rate : ℚ := 3/1000
  let trading_fees := (trade_size : ℚ) * trading_fee_rate
  let network_fees := (5/1000000) * (trade_size : ℚ)
  trading_fees + network_fees

/-- `jit_liquidity.rs` lines 135-159: `calculate_jit_profit`. -/
def calculate_jit_profit (market_state : MarketState) (trade_size : Nat) : ℚ × Nat :=
  let entry_price := calculate_entry_price market_state trade_size
  let exit_price := calculate_exit_price market_state trade_size
  let gross_profit := (exit_price - entry_price) * (trade_size : ℚ)
  let fees := calculate_total_fees trade_size market_state
  let net_profit := gross_profit - fees
  let profit_percentage := net_profit / ((trade_size : ℚ) * entry_price)
  (profit_percentage, f64ToU64 net_profit)

/-- `jit_liquidity.rs` lines 161-185: `create_jit_route`. -/
def create_jit_route (market_state : MarketState) (trade_size : Nat) :
    List TradeStep :=
  [{ market := market_state.market_address, side := .Buy,
     amount := trade_size, price := market_state.best_ask },
   { market := market_state.market_address, side := .Sell,
     amount := trade_size, price := market_state.best_bid }]

/-- `jit_liquidity.rs` lines 45-87: `analyze_market_for_jit` (`SystemTime::now`
is passed as `now`). -/
def analyze_market_for_jit (s : Settings) (market_states : List MarketState)
    (now : Int) (market : Pubkey) : ArbitrageResult (Option ArbitrageOpportunity) := do
  let market_state ← get_market_state market_states market
  let suitable ← is_market_suitable_for_jit s market_state
  if !suitable then .ok none
  else do
    let trade_size ← calculate_optimal_trade_size s market_state
    let (profit_percentage, estimated_profit) := calculate_jit_profit market_state trade_size
    if profit_percentage < s.trading.execution.min_profit_threshold then .ok none
    else
      .ok (some
        { source_market := market
          target_market := market
          token_pair := market_state.token_pair
          profit_percentage := profit_percentage
          required_amount := trade_size
          estimated_profit := estimated_profit
          route := create_jit_route market_state trade_size
          timestamp := now })

/-- `jit_liquidity.rs` lines 27-43: `find_jit_opportunities`. -/
def find_jit_opportunities (s : Settings) (market_states : List MarketState)
    (now : Int) (markets : List Pubkey) : ArbitrageResult (List ArbitrageOpportunity) := do
  let opportunities ← markets.foldlM
    (fun acc market => do
      match ← analyze_market_for_jit s market_states now market with
      | some opp => Except.ok (acc ++ [opp])
      | none => Except.ok acc)
    ([] : List ArbitrageOpportunity)
  .ok (sort_by_profit_desc opportunities)

/-- `jit_liquidity.rs` lines 269-287: `validate` (trait impl). -/
def validate (s : Settings) (now : Int) (opportunity : ArbitrageOpportunity) :
    ArbitrageResult Bool :=
  if now - opportunity.timestamp > 5 then .ok false
  else if opportunity.profit_percentage < s.trading.execution.min_profit_threshold then
    .ok false
  else .ok true

end JitLiquidityStrategy

namespace FlashLoanStrategy

/-- `flash_loan.rs` lines 27-31: the `protocol_rates` map.  The source uses a
`HashMap`; it is modelled as the association list in insertion order.  The two
places that iterate it (`select_best_flash_loan_protocol`'s strict-minimum
fold and `get_min_flash_loan_profit_needed`'s max fold) produce
order-independent observable results for the embedded claims. -/
def protocol_rates : List (FlashLoanProtocol × ℚ) :=
  [(.Solend, 9/10000), (.Port, 1/1000), (.Marinade, 1/500)]

/-- `flash_loan.rs` lines 246-251: `get_market_state`. -/
def get_market_state (market_states : List MarketState) (market : Pubkey) :
    ArbitrageResult MarketState :=
  match market_states.find? (fun state => state.market_address == market) with
  | some state => .ok state
  | none => .error (.MarketError "Market state not found")

/-- `flash_loan.rs` lines 274-289: `select_best_flash_loan_protocol`
(`lowest_fee` starts at `f64::MAX`). -/
def select_best_flash_loan_protocol (amount : Nat) :
    ArbitrageResult FlashLoanProtocol :=
  let r := protocol_rates.foldl
    (fun (acc : ℚ × Option FlashLoanProtocol) pr =>
      let fee := (amount : ℚ) * pr.2
      if fee < acc.1 then (fee, some pr.1) else acc)
    (f64MAX, none)
  match r.2 with
  | some protocol => .ok protocol
  | none => .error (.FlashLoanError "No suitable flash loan protocol found")

/-- `flash_loan.rs` lines 253-259: `calculate_flash_loan_fees`. -/
def calculate_flash_loan_fees (amount : Nat) : ArbitrageResult ℚ := do
  let protocol ← select_best_flash_loan_protocol amount
  match protocol_rates.find? (fun pr => pr.1 == protocol) with
  | some pr => .ok ((amount : ℚ) * pr.2)
  | none => .error (.FlashLoanError "Protocol rate not found")

/-- `flash_loan.rs` lines 261-272: `calculate_trading_fees`. -/
def calculate_trading_fees (amount : Nat) (market1 market2 : MarketState) : ℚ :=
  let fee_rate : ℚ := 3/1000
  let market1_fee := (amount : ℚ) * market1.best_ask * fee_rate
  let market2_fee := (amount : ℚ) * market2.best_bid * fee_rate
  market1_fee + market2_fee

/-- `flash_loan.rs` lines 291-297: `get_min_flash_loan_profit_needed`. -/
def get_min_flash_loan_profit_needed (s : Settings) : ℚ :=
  let min_profit_threshold := s.trading.execution.min_profit_threshold
  let max_flash_loan_fee := (protocol_rates.map Prod.snd).foldl max 0
  max_flash_loan_fee + min_profit_threshold

/-- `flash_loan.rs` lines 299-302: `get_flash_loan_limit`. -/
def get_flash_loan_limit : ArbitrageResult Nat :=
  .ok 1000000000

/-- `flash_loan.rs` lines 114-139: `are_markets_suitable` (the `||` of the
liquidity checks short-circuits, so the second lookup only runs when the
first passes). -/
def are_markets_suitable (s : Settings) (market1 market2 : MarketState) :
    ArbitrageResult Bool := do
  let liquidity1 ← market1.get_liquidity
  if liquidity1 < s.trading.markets.min_liquidity then .ok false
  else do
    let liquidity2 ← market2.get_liquidity
    if liquidity2 < s.trading.markets.min_liquidity then .ok false
    else
      let price_diff := (market2.best_bid - market1.best_ask) / market1.best_ask
      if price_diff ≤ 0 then .ok false
      else
        let min_profit_needed := get_min_flash_loan_profit_needed s
        if price_diff < min_profit_needed then .ok false
        else .ok true

/-- `flash_loan.rs` lines 141-163: `calculate_optimal_size`. -/
def calculate_optimal_size (s : Settings) (market1 market2 : MarketState) :
    ArbitrageResult Nat := do
  let liquidity1 ← market1.get_liquidity
  let liquidity2 ← market2.get_liquidity
  let max_size := min liquidity1 liquidity2
  let risk_adjusted_size := min max_size s.trading.execution.max_position_size
  let flash_loan_limit ← get_flash_loan_limit
  let final_size := min risk_adjusted_size flash_loan_limit
  .ok final_size

/-- `flash_loan.rs` lines 165-191: `calculate_flash_loan_profit`. -/
def calculate_flash_loan_profit (market1 market2 : MarketState)
    (trade_size : Nat) : ArbitrageResult (ℚ × Nat) := do
  let entry_amount := (trade_size : ℚ) * market1.best_ask
  let exit_amount := (trade_size : ℚ) * market2.best_bid
  let flash_loan_fees ← calculate_flash_loan_fees trade_size
  let trading_fees := calculate_trading_fees trade_size market1 market2
  let gross_profit := exit_amount - entry_amount
  let net_profit := gross_profit - flash_loan_fees - trading_fees
  let profit_percentage := net_profit / entry_amount
  .ok (profit_percentage, f64ToU64 net_profit)

/-- `flash_loan.rs` lines 226-235: `create_flash_loan_step`
(`Pubkey::default()` is the zero key; the price field is unused). -/
def create_flash_loan_step (amount : Nat) : ArbitrageResult TradeStep := do
  let _protocol ← select_best_flash_loan_protocol amount
  .ok { market := 0, side := .Buy, amount := amount, price := 0 }

/-- `flash_loan.rs` lines 237-244: `create_repayment_step`. -/
def create_repayment_step (amount : Nat) : ArbitrageResult TradeStep :=
  .ok { market := 0, side := .Sell, amount := amount, price := 0 }

/-- `flash_loan.rs` lines 193-224: `create_flash_loan_route`. -/
def create_flash_loan_route (market1 market2 : MarketState) (trade_size : Nat) :
    ArbitrageResult (List TradeStep) := do
  let borrow ← create_flash_loan_step trade_size
  let repay ← create_repayment_step trade_size
  .ok [borrow,
       { market := market1.market_address, side := .Buy,
         amount := trade_size, price := market1.best_ask },
       { market := market2.market_address, side := .Sell,
         amount := trade_size, price := market2.best_bid },
       repay]

/-- `flash_loan.rs` lines 63-112: `analyze_flash_loan_opportunity`. -/
def analyze_flash_loan_opportunity (s : Settings) (market_states : List MarketState)
    (now : Int) (market1 market2 : Pubkey) :
    ArbitrageResult (Option ArbitrageOpportunity) := do
  let market1_state ← get_market_state market_states market1
  let market2_state ← get_market_state market_states market2
  let suitable ← are_markets_suitable s market1_state market2_state
  if !suitable then .ok none
  else do
    let trade_size ← calculate_optimal_size s market1_state market2_state
    let (profit_percentage, estimated_profit) ←
      calculate_flash_loan_profit market1_state market2_state trade_size
    if profit_percentage < s.trading.execution.min_profit_threshold then .ok none
    else do
      let route ← create_flash_loan_route market1_state market2_state trade_size
      .ok (some
        { source_market := market1
          target_market := market2
          token_pair := market1_state.token_pair
          profit_percentage := profit_percentage
          required_amount := trade_size
          estimated_profit := estimated_profit
          route := route
          timestamp := now })

/-- The ordered pairs of distinct markets visited by the nested loops of
`find_flash_loan_opportunities`. -/
def distinct_pairs (markets : List Pubkey) : List (Pubkey × Pubkey) :=
  markets.flatMap (fun market1 =>
    (markets.filter (fun market2 => market1 ≠ market2)).map
      (fun market2 => (market1, market2)))

/-- `flash_loan.rs` lines 40-61: `find_flash_loan_opportunities`. -/
def find_flash_loan_opportunities (s : Settings) (market_states : List MarketState)
    (now : Int) (markets : List Pubkey) :
    ArbitrageResult (List ArbitrageOpportunity) := do
  let opportunities ← (distinct_pairs markets).foldlM
    (fun acc pair => do
      match ← analyze_flash_loan_opportunity s market_states now pair.1 pair.2 with
      | some opp => Except.ok (acc ++ [opp])
      | none => Except.ok acc)
    ([] : List ArbitrageOpportunity)
  .ok (sort_by_profit_desc opportunities)

/-- `flash_loan.rs` lines 319-337: `validate` (trait impl). -/
def validate (s : Settings) (market_states : List MarketState) (now : Int)
    (opportunity : ArbitrageOpportunity) : ArbitrageResult Bool :=
  if now - opportunity.timestamp > 3 then .ok false
  else do
    let market1_state ← get_market_state market_states opportunity.source_market
    let market2_state ← get_market_state market_states opportunity.target_market
    are_markets_suitable s market1_state market2_state

end FlashLoanStrategy

namespace FrontRunningStrategy

/-- `front_running.rs` lines 24-30: `PendingTransaction`. -/
structure PendingTransaction where
  market : Pubkey
  side : TradeSide
  amount : Nat
  price : ℚ
  timestamp : Int
  deriving Repr, DecidableEq

/-- `front_running.rs` lines 237-242: `get_market_state`. -/
def get_market_state (market_states : List MarketState) (market : Pubkey) :
    ArbitrageResult MarketState :=
  match market_states.find? (fun state => state.market_address == market) with
  | some state => .ok state
  | none => .error (.MarketError "Market state not found")

/-- `front_running.rs` lines 63-67: `analyze_mempool` (returns the strategy's
`pending_transactions` queue). -/
def analyze_mempool (pending_transactions : List PendingTransaction) :
    ArbitrageResult (List PendingTransaction) :=
  .ok pending_transactions

/-- `front_running.rs` lines 257-265: `calculate_price_impact`. -/
def calculate_price_impact (tx : PendingTransaction) : ℚ :=
  let impact_factor : ℚ := 1/10000
  (tx.amount : ℚ) * impact_factor

/-- `front_running.rs` lines 308-311: `calculate_min_impact_size`. -/
def calculate_min_impact_size (market_state : MarketState) : ArbitrageResult Nat := do
  let liquidity ← market_state.get_liquidity
  .ok (liquidity / 100)

/-- `front_running.rs` lines 114-146: `is_transaction_suitable`
(`SystemTime::now` is passed as `now`). -/
def is_transaction_suitable (s : Settings) (now : Int) (tx : PendingTransaction)
    (market_state : MarketState) : ArbitrageResult Bool :=
  if now - tx.timestamp > 2 then .ok false
  else do
    let min_impact_size ← calculate_min_impact_size market_state
    if tx.amount < min_impact_size then .ok false
    else do
      let liquidity ← market_state.get_liquidity
      if liquidity < s.trading.markets.min_liquidity then .ok false
      else
        let price_impact := calculate_price_impact tx
        if price_impact < s.trading.markets.max_spread then .ok false
        else .ok true

/-- `front_running.rs` lines 244-247: `calculate_market_depth` (placeholder
returning `Ok(1.0)`). -/
def calculate_market_depth (_market_state : MarketState) : ℚ := 1

/-- `front_running.rs` lines 249-255: `calculate_min_profitable_size`. -/
def calculate_min_profitable_size (s : Settings) (market_state : MarketState) : Nat :=
  let fee_rate : ℚ := 3/1000
  let min_profit := s.trading.execution.min_profit_threshold
  f64ToU64 (market_state.best_ask * fee_rate / min_profit)

/-- `front_running.rs` lines 148-169: `calculate_optimal_position` (every
helper it calls returns `Ok` in the source, so the embedding is pure). -/
def calculate_optimal_position (s : Settings) (tx : PendingTransaction)
    (market_state : MarketState) : Nat :=
  let base_size := tx.amount / 4
  let market_depth := calculate_market_depth market_state
  let depth_adjusted := f64ToU64 ((base_size : ℚ) * market_depth)
  let risk_adjusted := min depth_adjusted s.trading.execution.max_position_size
  let min_size := calculate_min_profitable_size s market_state
  max risk_adjusted min_size

/-- `front_running.rs` lines 290-297: `estimate_slippage` (placeholder 0.1%). -/
def estimate_slippage (_size : Nat) (_market_state : MarketState) : ℚ := 1/1000

/-- `front_running.rs` lines 267-275: `calculate_entry_price`. -/
def calculate_entry_price (size : Nat) (market_state : MarketState) : ℚ :=
  let base_price := market_state.best_ask
  let slippage := estimate_slippage size market_state
  base_price * (1 + slippage)

/-- `front_running.rs` lines 277-288: `calculate_expected_price`. -/
def calculate_expected_price (tx : PendingTransaction)
    (market_state : MarketState) : ℚ :=
  let impact := calculate_price_impact tx
  match tx.side with
  | .Buy => market_state.best_ask * (1 + impact)
  | .Sell => market_state.best_bid * (1 - impact)

/-- `front_running.rs` lines 299-306: `calculate_total_fees`. -/
def calculate_total_fees (size : Nat) (market_state : MarketState) : ℚ :=
  let fee_rate : ℚ := 3/1000
  (size : ℚ) * market_state.best_ask * fee_rate

/-- `front_running.rs` lines 171-205: `calculate_front_running_profit`. -/
def calculate_front_running_profit (tx : PendingTransaction) (position_size : Nat)
    (market_state : MarketState) : ℚ × Nat :=
  let entry_price := calculate_entry_price position_size market_state
  let expected_price := calculate_expected_price tx market_state
  let exit_price := match tx.side with
    | .Buy => expected_price * (101/100)
    | .Sell => expected_price * (99/100)
  let gross_profit := match tx.side with
    | .Buy => (exit_price - entry_price) * (position_size : ℚ)
    | .Sell => (entry_price - exit_price) * (position_size : ℚ)
  let fees := calculate_total_fees position_size market_state
  let net_profit := gross_profit - fees
  let profit_percentage := net_profit / ((position_size : ℚ) * entry_price)
  (profit_percentage, f64ToU64 net_profit)

/-- `front_running.rs` lines 207-235: `create_front_running_route`. -/
def create_front_running_route (tx : PendingTransaction) (position_size : Nat)
    (market_state : MarketState) : List TradeStep :=
  [{ market := market_state.market_address
     side := match tx.side with
       | .Buy => .Sell
       | .Sell => .Buy
     amount := position_size
     price := market_state.best_ask },
   { market := market_state.market_address
     side := tx.side
     amount := position_size
     price := market_state.best_bid }]

/-- `front_running.rs` lines 69-112: `analyze_transaction_opportunity`. -/
def analyze_transaction_opportunity (s : Settings) (market_states : List MarketState)
    (now : Int) (pending_tx : PendingTransaction) :
    ArbitrageResult (Option ArbitrageOpportunity) := do
  let market_state ← get_market_state market_states pending_tx.market
  let suitable ← is_transaction_suitable s now pending_tx market_state
  if !suitable then .ok none
  else
    let position_size := calculate_optimal_position s pending_tx market_state
    let (profit_percentage, estimated_profit) :=
      calculate_front_running_profit pending_tx position_size market_state
    if profit_percentage < s.trading.execution.min_profit_threshold then .ok none
    else
      .ok (some
        { source_market := pending_tx.market
          target_market := pending_tx.market
          token_pair := market_state.token_pair
          profit_percentage := profit_percentage
          required_amount := position_size
          estimated_profit := estimated_profit
          route := create_front_running_route pending_tx position_size market_state
          timestamp := now })

/-- `front_running.rs` lines 41-61: `find_front_running_opportunities` (the
`markets` argument is unused by the source; the mempool queue is passed in). -/
def find_front_running_opportunities (s : Settings) (market_states : List MarketState)
    (pending_transactions : List PendingTransaction) (now : Int) :
    ArbitrageResult (List ArbitrageOpportunity) := do
  let mempool_txs ← analyze_mempool pending_transactions
  let opportunities ← mempool_txs.foldlM
    (fun acc tx => do
      match ← analyze_transaction_opportunity s market_states now tx with
      | some opp => Except.ok (acc ++ [opp])
      | none => Except.ok acc)
    ([] : List ArbitrageOpportunity)
  .ok (sort_by_profit_desc opportunities)

/-- `front_running.rs` lines 328-349: `validate` (trait impl). -/
def validate (s : Settings) (market_states : List MarketState) (now : Int)
    (opportunity : ArbitrageOpportunity) : ArbitrageResult Bool :=
  if now - opportunity.timestamp > 1 then .ok false
  else do
    let market_state ← get_market_state market_states opportunity.source_market
    let liquidity ← market_state.get_liquidity
    if liquidity < s.trading.markets.min_liquidity then .ok false
    else .ok true

end FrontRunningStrategy

/-! ### Arbitrage engine (`core/arbitrage_engine.rs`) -/

namespace ArbitrageEngine

/-- Environment of one `execute_arbitrage` call.  Modelled from the spec: the
engine's `build_arbitrage_transaction`, `simulate_transaction`,
`send_transaction` and `confirm_transaction` are `unimplemented!` stubs in the
source, so each is an oracle giving that fallible collaborator's outcome.  A
transaction is identified by its instruction list; `elapsed_ms` models the
wall-clock time measured around the call. -/
structure EngineEnv where
  build_result : Except ArbitrageError (List Instruction)
  simulate_result : List Instruction → Except ArbitrageError Bool
  send_result : List Instruction → Except ArbitrageError String
  confirm_result : String → Except ArbitrageError Unit
  elapsed_ms : Nat

/-- `arbitrage_engine.rs` lines 214-249: `execute_arbitrage`.  The second
component of the returned pair counts the `send_transaction` invocations made
during the call (0 or 1), which the source performs at line 232. -/
def execute_arbitrage (env : EngineEnv) (opportunity : ArbitrageOpportunity) :
    Except ArbitrageError ExecutionResult × Nat :=
  match env.build_result with
  | .error e => (.error e, 0)
  | .ok transaction =>
    match env.simulate_result transaction with
    | .error e => (.error e, 0)
    | .ok false =>
      (.ok { success := false
             profit_realized := none
             error := some "Transaction simulation failed"
             transaction_signature := none
             execution_time_ms := 0 }, 0)
    | .ok true =>
      match env.send_result transaction with
      | .error e => (.error e, 1)
      | .ok signature =>
        match env.confirm_result signature with
        | .error e => (.error e, 1)
        | .ok _ =>
          (.ok { success := true
                 profit_realized := some opportunity.estimated_profit
                 error := none
                 transaction_signature := some signature
                 execution_time_ms := env.elapsed_ms }, 1)

end ArbitrageEngine

/-! ### Concrete example values (inputs for witnesses and counterexamples) -/

/-- An example base token. -/
def tokenA : Token := { address := 1, symbol := "A", decimals := 6 }

/-- An example quote token. -/
def tokenB : Token := { address := 2, symbol := "B", decimals := 6 }

/-- An example token pair. -/
def pairAB : TokenPair := { base_token := tokenA, quote_token := tokenB }

/-- A market state over `pairAB` with the given address, quotes and liquidity. -/
def msEx (addr : Pubkey) (bid ask : ℚ) (liq : Option Nat) : MarketState :=
  { market_address := addr, base_token := tokenA, quote_token := tokenB,
    best_bid := bid, best_ask := ask, last_update := 0, liquidity := liq }

/-- An opportunity with an empty route. -/
def oppEmptyRoute : ArbitrageOpportunity :=
  { source_market := 1, target_market := 2, token_pair := pairAB,
    profit_percentage := 0, required_amount := 0, estimated_profit := 0,
    route := [], timestamp := 0 }

/-- An opportunity with a 3-step route (none of whose steps is an actual
borrow leg). -/
def oppRoute3 : ArbitrageOpportunity :=
  { source_market := 1, target_market := 2, token_pair := pairAB,
    profit_percentage := 0, required_amount := 1000, estimated_profit := 0,
    route := [{ market := 1, side := .Buy, amount := 1000, price := 10 },
              { market := 2, side := .Sell, amount := 1000, price := 11 },
              { market := 1, side := .Buy, amount := 500, price := 10 }],
    timestamp := 0 }

/-- An opportunity with a 2-step route. -/
def oppRoute2 : ArbitrageOpportunity :=
  { source_market := 1, target_market := 2, token_pair := pairAB,
    profit_percentage := 0, required_amount := 1000, estimated_profit := 0,
    route := [{ market := 1, side := .Buy, amount := 1000, price := 10 },
              { market := 2, side := .Sell, amount := 1000, price := 11 }],
    timestamp := 0 }

/-- Venue quoting ask 10.5 with depth 1000. -/
def venueAsk105 : DexVenue :=
  { name := "serum", find_market_result := some 10,
    best_price_result := some (10, 21/2), liquidity_result := some 1000 }

/-- Venue quoting ask 10.2 with depth 800. -/
def venueAsk102 : DexVenue :=
  { name := "orca", find_market_result := some 11,
    best_price_result := some (10, 51/5), liquidity_result := some 800 }

/-- Venue quoting ask 10.8 with depth 100 (insufficient for size 500). -/
def venueAsk108 : DexVenue :=
  { name := "raydium", find_market_result := some 12,
    best_price_result := some (10, 54/5), liquidity_result := some 100 }

/-- A venue with bid 10, ample depth, for the sell-side evaluation. -/
def venueBid10 : DexVenue :=
  { name := "serum", find_market_result := some 10,
    best_price_result := some (10, 11), liquidity_result := some 1000 }

/-- Venue-A market of the cross-venue scenario: best_bid 100, best_ask 101. -/
def marketInfoA : DexRegistry.MarketInfo := { address := 10, best_price_result := some (100, 101) }

/-- Venue-B market of the cross-venue scenario: best_bid 103, best_ask 104. -/
def marketInfoB : DexRegistry.MarketInfo := { address := 11, best_price_result := some (103, 104) }

/-- A pending transaction of size 0. -/
def txAmountZero : FrontRunningStrategy.PendingTransaction :=
  { market := 5, side := .Buy, amount := 0, price := 0, timestamp := 0 }

/-- A market whose ask price (10^10) drives the computed minimum profitable
size above the default position cap. -/
def msHugeAsk : MarketState := msEx 5 (10 ^ 10) (10 ^ 10) (some 0)

/-- An engine environment whose simulation reports failure. -/
def envSimulateFalse : ArbitrageEngine.EngineEnv :=
  { build_result := .ok []
    simulate_result := fun _ => .ok false
    send_result := fun _ => .ok "sig"
    confirm_result := fun _ => .ok ()
    elapsed_ms := 7 }

/-- The `Ok` value of `build_trade_instructions` for one route step: the
buy/sell+settlement pair, then the MEV-protection instructions when enabled. -/
def trade_leg_group (s : Settings) (step : TradeStep) : List Instruction :=
  TransactionBuilder.build_side_instructions step ++
    (if s.security.mev_protection.enabled then TransactionBuilder.add_mev_protection s step
     else [])

/-- The contribution of one market pair to `get_cross_dex_opportunities`. -/
def cross_pair_step (min_profit_percentage : ℚ)
    (market1 market2 : DexRegistry.MarketInfo) :
    Option DexRegistry.CrossDexOpportunity :=
  match DexRegistry.calculate_cross_dex_profit market1 market2 with
  | .ok (profit, direction) =>
    if profit ≥ min_profit_percentage then
      some { source_market := market1, target_market := market2,
             profit_percentage := profit, direction := direction }
    else none
  | .error _ => none

/-! ### Helper lemmas -/

theorem build_trade_instructions_eq (s : Settings) (step : TradeStep) :
    TransactionBuilder.build_trade_instructions s step = .ok (trade_leg_group s step) := by
  unfold TransactionBuilder.build_trade_instructions trade_leg_group
  split <;> simp

theorem arb_bind_ok {α β : Type} (a : α) (f : α → ArbitrageResult β) :
    (do
      let x ← (Except.ok a : ArbitrageResult α)
      f x) = f a := rfl

theorem foldlM_trade_instructions (s : Settings) :
    ∀ (route : List TradeStep) (acc : List Instruction),
      (route.foldlM
        (fun acc step => do
          let tr ← TransactionBuilder.build_trade_instructions s step
          .ok (acc ++ tr))
        acc : ArbitrageResult (List Instruction)) =
      .ok (acc ++ (route.map (trade_leg_group s)).flatten)
  | [], acc => by simp [List.foldlM]; rfl
  | step :: rest, acc => by
    rw [List.foldlM_cons, build_trade_instructions_eq, arb_bind_ok, arb_bind_ok,
      foldlM_trade_instructions s rest (acc ++ trade_leg_group s step)]
    simp

theorem build_arbitrage_transaction_eq_of_gt (s : Settings)
    (opp : ArbitrageOpportunity) (h : 2 < opp.route.length) :
    TransactionBuilder.build_arbitrage_transaction s opp =
      .ok (Instruction.flashLoan
            { token := opp.token_pair.base_token
              amount := opp.required_amount
              protocol := .Solend } ::
           ((opp.route.map (trade_leg_group s)).flatten ++
            [Instruction.repayment
              (opp.required_amount +
                TransactionBuilder.calculate_flash_loan_fee opp.required_amount)])) := by
  simp only [TransactionBuilder.build_arbitrage_transaction,
    TransactionBuilder.build_flash_loan_instructions,
    TransactionBuilder.select_flash_loan_protocol,
    TransactionBuilder.build_repayment_instructions,
    h, if_true, arb_bind_ok, foldlM_trade_instructions]
  simp

theorem build_arbitrage_transaction_eq_of_le (s : Settings)
    (opp : ArbitrageOpportunity) (h : ¬ 2 < opp.route.length) :
    TransactionBuilder.build_arbitrage_transaction s opp =
      .ok ((opp.route.map (trade_leg_group s)).flatten) := by
  simp only [TransactionBuilder.build_arbitrage_transaction,
    h, if_false, arb_bind_ok, foldlM_trade_instructions]
  simp

theorem mem_add_mev_protection (s : Settings) (step : TradeStep) :
    ∀ i ∈ TransactionBuilder.add_mev_protection s step,
      i = Instruction.frontrunningProtection ∨
      i = Instruction.backrunningProtection ∨
      i = Instruction.sandwichProtection := by
  intro i hi
  unfold TransactionBuilder.add_mev_protection at hi
  simp only [List.mem_append] at hi
  rcases hi with (h | h) | h <;> split at h <;> simp_all

theorem trade_leg_group_no_borrow_repay (s : Settings) (step : TradeStep) :
    ∀ i ∈ trade_leg_group s step, i.isFlashLoan = false ∧ i.isRepayment = false := by
  intro i hi
  unfold trade_leg_group at hi
  rcases List.mem_append.1 hi with h | h
  · unfold TransactionBuilder.build_side_instructions at h
    rcases step with ⟨m, side, amount, price⟩
    cases side <;>
      simp only [List.mem_cons, List.not_mem_nil, or_false] at h <;>
      rcases h with h | h <;> subst h <;> exact ⟨rfl, rfl⟩
  · have h' : i ∈ TransactionBuilder.add_mev_protection s step := by
      by_cases hm : s.security.mev_protection.enabled = true
      · rwa [if_pos hm] at h
      · rw [if_neg hm] at h
        cases h
    rcases mem_add_mev_protection s step i h' with h | h | h <;> subst h <;>
      exact ⟨rfl, rfl⟩

/-! ### Claim theorems -/

/-- **C1**: for every opportunity whose route indicates borrowed capital
(route length > 2, the shape `create_flash_loan_route` produces),
`build_arbitrage_transaction` emits a flash-loan borrow instruction first,
then one trade-leg instruction group per route step in route order, then a
repayment instruction last; no trade-leg group contains a borrow or a
repayment instruction. -/
theorem borrow_precedes_trades_precede_repay (s : Settings)
    (opp : ArbitrageOpportunity) (h : 2 < opp.route.length) :
    ∃ borrow repay : Instruction,
      borrow.isFlashLoan = true ∧ repay.isRepayment = true ∧
      TransactionBuilder.build_arbitrage_transaction s opp =
        .ok (borrow :: ((opp.route.map (trade_leg_group s)).flatten ++ [repay])) ∧
      ∀ i ∈ (opp.route.map (trade_leg_group s)).flatten,
        i.isFlashLoan = false ∧ i.isRepayment = false := by
  refine ⟨Instruction.flashLoan
      { token := opp.token_pair.base_token
        amount := opp.required_amount
        protocol := .Solend },
    Instruction.repayment
      (opp.required_amount +
        TransactionBuilder.calculate_flash_loan_fee opp.required_amount),
    rfl, rfl, build_arbitrage_transaction_eq_of_gt s opp h, ?_⟩
  intro i hi
  rw [List.mem_flatten] at hi
  obtain ⟨l, hl, hil⟩ := hi
  rw [List.mem_map] at hl
  obtain ⟨step, _, rfl⟩ := hl
  exact trade_leg_group_no_borrow_repay s step i hil

/-- Witness for C1 at a concrete 3-step route and the default settings. -/
theorem borrow_precedes_trades_precede_repay_witness :
    2 < oppRoute3.route.length ∧
    (∃ borrow repay : Instruction,
      borrow.isFlashLoan = true ∧ repay.isRepayment = true ∧
      TransactionBuilder.build_arbitrage_transaction Settings.default oppRoute3 =
        .ok (borrow ::
          ((oppRoute3.route.map (trade_leg_group Settings.default)).flatten ++ [repay])) ∧
      ∀ i ∈ (oppRoute3.route.map (trade_leg_group Settings.default)).flatten,
        i.isFlashLoan = false ∧ i.isRepayment = false) :=
  ⟨by decide,
   borrow_precedes_trades_precede_repay Settings.default oppRoute3 (by decide)⟩

/-- **C10**: the borrowed-capital test is `route.length > 2` and is applied
consistently: the assembled transaction contains a borrow instruction iff the
route has more than 2 steps, likewise a repayment instruction;
`calculate_total_fees` adds exactly the flash-loan fee on top of the trading
and protocol fees iff the route has more than 2 steps; and
`estimate_gas_costs` adds exactly the 2000 flash-loan surcharge on top of the
base and MEV costs iff the route has more than 2 steps. -/
theorem flash_loan_guard_is_route_len_gt_two (s : Settings)
    (opp : ArbitrageOpportunity) :
    (∃ l, TransactionBuilder.build_arbitrage_transaction s opp = .ok l ∧
      ((∃ i ∈ l, i.isFlashLoan = true) ↔ 2 < opp.route.length) ∧
      ((∃ i ∈ l, i.isRepayment = true) ↔ 2 < opp.route.length)) ∧
    ProfitCalculator.calculate_total_fees opp =
      ProfitCalculator.sum_trading_fees opp.route +
        ProfitCalculator.calculate_protocol_fees opp +
        (if 2 < opp.route.length then
          ProfitCalculator.calculate_flash_loan_fee opp.required_amount
         else 0) ∧
    ProfitCalculator.estimate_gas_costs s opp =
      5000 + opp.route.length * 1000 +
        (if s.security.mev_protection.enabled then 1000 else 0) +
        (if 2 < opp.route.length then 2000 else 0) := by
  refine ⟨?_, ?_, ?_⟩
  · by_cases h : 2 < opp.route.length
    · refine ⟨_, build_arbitrage_transaction_eq_of_gt s opp h, ?_, ?_⟩ <;>
        constructor <;> intro _ <;> try exact h
      · exact ⟨Instruction.flashLoan
          { token := opp.token_pair.base_token
            amount := opp.required_amount
            protocol := .Solend }, by simp, rfl⟩
      · exact ⟨Instruction.repayment
          (opp.required_amount +
            TransactionBuilder.calculate_flash_loan_fee opp.required_amount),
          by simp, rfl⟩
    · refine ⟨_, build_arbitrage_transaction_eq_of_le s opp h, ?_, ?_⟩ <;>
        constructor <;> intro hx <;> try exact absurd hx h
      all_goals {
        obtain ⟨i, hi, hflag⟩ := hx
        rw [List.mem_flatten] at hi
        obtain ⟨l, hl, hil⟩ := hi
        rw [List.mem_map] at hl
        obtain ⟨step, _, rfl⟩ := hl
        have := trade_leg_group_no_borrow_repay s step i hil
        simp_all }
  · unfold ProfitCalculator.calculate_total_fees
    split <;> ring
  · unfold ProfitCalculator.estimate_gas_costs
    split <;> split <;> ring

theorem validate_risk_parameters_eq (s : Settings) (opp : ArbitrageOpportunity)
    (p : ℚ) :
    ProfitCalculator.validate_risk_parameters s opp p =
      .ok (decide (opp.required_amount ≤ s.trading.execution.max_position_size) &&
           decide (s.trading.risk.max_loss_threshold ≤ p / (opp.required_amount : ℚ))) := by
  unfold ProfitCalculator.validate_risk_parameters
  by_cases h1 : s.trading.execution.max_position_size < opp.required_amount
  · simp [h1, not_le.2 h1]
  · by_cases h2 : p / (opp.required_amount : ℚ) < s.trading.risk.max_loss_threshold
    · simp [h1, h2, not_le.2 h2, not_lt.1 h1]
    · simp [h1, h2, not_lt.1 h1, not_lt.1 h2]

/-- **C2**: whenever the profit computation succeeds with total profit `p`,
`is_profitable` returns `Ok` of exactly the conjunction of the three
conditions (profit ≥ min threshold, risk ratio ≥ max-loss threshold, required
amount ≤ max position size) — a silent reject, never an error — and in
particular returns `Ok false` whenever the required amount exceeds the
position cap, regardless of `p`. -/
theorem is_profitable_iff_thresholds (s : Settings) (opp : ArbitrageOpportunity)
    (states : List MarketState) (p : ℚ)
    (h : ProfitCalculator.calculate_total_profit s opp states = .ok p) :
    ProfitCalculator.is_profitable s opp states =
      .ok (decide (s.trading.execution.min_profit_threshold ≤ p) &&
           (decide (opp.required_amount ≤ s.trading.execution.max_position_size) &&
            decide (s.trading.risk.max_loss_threshold ≤ p / (opp.required_amount : ℚ)))) ∧
    (s.trading.execution.max_position_size < opp.required_amount →
      ProfitCalculator.is_profitable s opp states = .ok false) := by
  have hmain : ProfitCalculator.is_profitable s opp states =
      .ok (decide (s.trading.execution.min_profit_threshold ≤ p) &&
           (decide (opp.required_amount ≤ s.trading.execution.max_position_size) &&
            decide (s.trading.risk.max_loss_threshold ≤ p / (opp.required_amount : ℚ)))) := by
    unfold ProfitCalculator.is_profitable
    rw [h, arb_bind_ok]
    by_cases h1 : p < s.trading.execution.min_profit_threshold
    · simp [h1, not_le.2 h1]
    · rw [if_neg h1, validate_risk_parameters_eq, arb_bind_ok]
      have hd : decide (s.trading.execution.min_profit_threshold ≤ p) = true :=
        decide_eq_true (not_lt.1 h1)
      cases hb : (decide (opp.required_amount ≤ s.trading.execution.max_position_size) &&
          decide (s.trading.risk.max_loss_threshold ≤ p / (opp.required_amount : ℚ))) <;>
        simp [hd, hb]
  refine ⟨hmain, fun hbig => ?_⟩
  rw [hmain]
  have : decide (opp.required_amount ≤ s.trading.execution.max_position_size) = false := by
    simp [not_le.2 hbig]
  simp [this]

/-- Witness for C2: on an empty-route opportunity with required amount 0 the
profit computation succeeds with `-6000` (base+route gas 5000, MEV overhead
1000), which is below the default 0.01 threshold, so the verdict is a silent
`Ok false`. -/
theorem is_profitable_iff_thresholds_witness :
    ProfitCalculator.calculate_total_profit Settings.default oppEmptyRoute [] =
      .ok (-6000) ∧
    ProfitCalculator.is_profitable Settings.default oppEmptyRoute [] = .ok false := by
  have h : ProfitCalculator.calculate_total_profit Settings.default oppEmptyRoute [] =
      .ok (-6000) := by
    norm_num [ProfitCalculator.calculate_total_profit,
      ProfitCalculator.calculate_total_fees, ProfitCalculator.sum_trading_fees,
      ProfitCalculator.calculate_protocol_fees,
      ProfitCalculator.estimate_gas_costs, oppEmptyRoute, Settings.default,
      List.foldlM]
  refine ⟨h, ?_⟩
  have hm := (is_profitable_iff_thresholds Settings.default oppEmptyRoute [] (-6000) h).1
  rw [hm]
  norm_num [Settings.default, oppEmptyRoute]

/-- **C3** (evaluation): on the buy scenario with asks 10.5, 10.2, 10.8 where
only the first two venues have depth ≥ 500, the venue quoting 10.2 is
selected; but on the sell side the code never selects any venue — with a
single qualifying venue (bid 10, depth 1000) it still fails with the
"No suitable execution venue found" market error, because `best_price` starts
at `f64::MAX` and the sell branch demands `price > best_price`. -/
theorem best_execution_venue_eval :
    DexRegistry.get_best_execution_venue [venueAsk105, venueAsk102, venueAsk108] 500 true =
      .ok (venueAsk102, 51/5) ∧
    DexRegistry.get_best_execution_venue [venueBid10] 500 false =
      .error (.MarketError "No suitable execution venue found") := by
  constructor <;>
    norm_num [DexRegistry.get_best_execution_venue, List.foldl,
      venueAsk105, venueAsk102, venueAsk108, venueBid10, f64MAX]

/-- **C4**: each strategy's `validate` returns `Ok(false)` whenever the
opportunity is older than the strategy's freshness window — 5 s for the
same-venue round-trip (JIT), 3 s for the borrowed-capital (flash-loan), 1 s
for the pre-emption (front-running) strategy. -/
theorem validate_rejects_stale (s : Settings) (states : List MarketState)
    (now : Int) (opp : ArbitrageOpportunity) :
    (now - opp.timestamp > 5 → JitLiquidityStrategy.validate s now opp = .ok false) ∧
    (now - opp.timestamp > 3 → FlashLoanStrategy.validate s states now opp = .ok false) ∧
    (now - opp.timestamp > 1 → FrontRunningStrategy.validate s states now opp = .ok false) := by
  refine ⟨fun h => ?_, fun h => ?_, fun h => ?_⟩
  · simp [JitLiquidityStrategy.validate, h]
  · simp [FlashLoanStrategy.validate, h]
  · simp [FrontRunningStrategy.validate, h]

/-- Witness for C4 at age 10 s (beyond all three windows). -/
theorem validate_rejects_stale_witness :
    JitLiquidityStrategy.validate Settings.default 10 oppEmptyRoute = .ok false ∧
    FlashLoanStrategy.validate Settings.default [] 10 oppEmptyRoute = .ok false ∧
    FrontRunningStrategy.validate Settings.default [] 10 oppEmptyRoute = .ok false :=
  ⟨(validate_rejects_stale Settings.default [] 10 oppEmptyRoute).1 (by decide),
   (validate_rejects_stale Settings.default [] 10 oppEmptyRoute).2.1 (by decide),
   (validate_rejects_stale Settings.default [] 10 oppEmptyRoute).2.2 (by decide)⟩

/-- **C5**: when simulation reports failure, `execute_arbitrage` performs no
`send_transaction` invocation (count 0) and returns `success = false`, the
textual simulation-failure cause, and no signature. -/
theorem simulation_failure_never_sent (env : ArbitrageEngine.EngineEnv)
    (opp : ArbitrageOpportunity) (tx : List Instruction)
    (hb : env.build_result = .ok tx)
    (hs : env.simulate_result tx = .ok false) :
    ArbitrageEngine.execute_arbitrage env opp =
      (.ok { success := false
             profit_realized := none
             error := some "Transaction simulation failed"
             transaction_signature := none
             execution_time_ms := 0 }, 0) := by
  simp only [ArbitrageEngine.execute_arbitrage, hb, hs]

/-- Witness for C5 on an environment whose simulation returns `Ok(false)`. -/
theorem simulation_failure_never_sent_witness :
    ArbitrageEngine.execute_arbitrage envSimulateFalse oppEmptyRoute =
      (.ok { success := false
             profit_realized := none
             error := some "Transaction simulation failed"
             transaction_signature := none
             execution_time_ms := 0 }, 0) :=
  simulation_failure_never_sent envSimulateFalse oppEmptyRoute [] rfl rfl

/-- **C7**: the slippage estimate is monotone non-decreasing in the trade
amount (for non-negative amounts) and never exceeds the configured
`slippage_tolerance`. -/
theorem slippage_monotone_and_capped (s : Settings) (ms : MarketState)
    (a1 a2 : ℚ) (_h0 : 0 ≤ a1) (h12 : a1 ≤ a2) :
    ProfitCalculator.calculate_slippage s a1 ms ≤
      ProfitCalculator.calculate_slippage s a2 ms ∧
    ProfitCalculator.calculate_slippage s a1 ms ≤
      s.trading.risk.slippage_tolerance := by
  unfold ProfitCalculator.calculate_slippage
  refine ⟨min_le_min ?_ le_rfl, min_le_right _ _⟩
  exact mul_le_mul_of_nonneg_right
    ((div_le_div_iff_of_pos_right (by norm_num)).2 h12) (by norm_num)

/-- Witness for C7 at amounts 3 ≤ 5. -/
theorem slippage_monotone_and_capped_witness :
    ProfitCalculator.calculate_slippage Settings.default 3 (msEx 1 10 11 (some 0)) ≤
      ProfitCalculator.calculate_slippage Settings.default 5 (msEx 1 10 11 (some 0)) ∧
    ProfitCalculator.calculate_slippage Settings.default 3 (msEx 1 10 11 (some 0)) ≤
      Settings.default.trading.risk.slippage_tolerance :=
  slippage_monotone_and_capped Settings.default (msEx 1 10 11 (some 0)) 3 5
    (by norm_num) (by norm_num)

theorem rat_floor_eq_int_floor (q : ℚ) : q.floor = ⌊q⌋ := rfl

theorem f64ToU64_natCast (n : ℕ) : f64ToU64 (n : ℚ) = min n (2 ^ 64 - 1) := by
  unfold f64ToU64
  rw [if_neg (not_lt.2 (by positivity)), rat_floor_eq_int_floor, Int.floor_natCast]
  simp

/-- **C8** (counterexample): the pre-emption position size is not clamped to
the position cap — with the default settings, a pending transaction of size 0
and a market whose ask is 10^10, the computed minimum profitable size is
3·10^9, and the returned position (3·10^9) exceeds `max_position_size`
(10^9), because the source applies `.max(min_size)` after the cap. -/
theorem optimal_position_exceeds_cap :
    Settings.default.trading.execution.max_position_size <
      FrontRunningStrategy.calculate_optimal_position Settings.default
        txAmountZero msHugeAsk := by
  have h1 : FrontRunningStrategy.calculate_min_profitable_size Settings.default
      msHugeAsk = 3000000000 := by
    have harg : msHugeAsk.best_ask * (3/1000) /
        Settings.default.trading.execution.min_profit_threshold =
        ((3000000000 : ℕ) : ℚ) := by
      norm_num [msHugeAsk, msEx, Settings.default]
    show f64ToU64 (msHugeAsk.best_ask * (3/1000) /
      Settings.default.trading.execution.min_profit_threshold) = 3000000000
    rw [harg, f64ToU64_natCast]
    norm_num
  have h2 : f64ToU64 ((↑(txAmountZero.amount / 4) : ℚ) *
      FrontRunningStrategy.calculate_market_depth msHugeAsk) = 0 := by
    have harg : (↑(txAmountZero.amount / 4) : ℚ) *
        FrontRunningStrategy.calculate_market_depth msHugeAsk = ((0 : ℕ) : ℚ) := by
      norm_num [txAmountZero, FrontRunningStrategy.calculate_market_depth]
    rw [harg, f64ToU64_natCast]
    norm_num
  show Settings.default.trading.execution.max_position_size <
    max (min (f64ToU64 ((↑(txAmountZero.amount / 4) : ℚ) *
          FrontRunningStrategy.calculate_market_depth msHugeAsk))
         Settings.default.trading.execution.max_position_size)
        (FrontRunningStrategy.calculate_min_profitable_size Settings.default msHugeAsk)
  rw [h1, h2]
  norm_num [Settings.default]

/-- **C8** (amended): the pre-emption position size is never below the
computed minimum profitable size, and it never exceeds `max_position_size`
provided that minimum does not itself exceed the cap (the source applies
`.max(min_size)` after the cap, so the lower bound prevails on conflict). -/
theorem optimal_position_clamped_amended (s : Settings)
    (tx : FrontRunningStrategy.PendingTransaction) (ms : MarketState)
    (h : FrontRunningStrategy.calculate_min_profitable_size s ms ≤
      s.trading.execution.max_position_size) :
    FrontRunningStrategy.calculate_min_profitable_size s ms ≤
      FrontRunningStrategy.calculate_optimal_position s tx ms ∧
    FrontRunningStrategy.calculate_optimal_position s tx ms ≤
      s.trading.execution.max_position_size := by
  unfold FrontRunningStrategy.calculate_optimal_position
  exact ⟨le_max_right _ _, max_le (min_le_right _ _) h⟩

/-- Witness for the amended C8: ask price 10 gives minimum profitable size 3,
below the default cap, and both bounds hold. -/
theorem optimal_position_clamped_amended_witness :
    FrontRunningStrategy.calculate_min_profitable_size Settings.default
        (msEx 1 10 10 (some 0)) ≤
      FrontRunningStrategy.calculate_optimal_position Settings.default
        txAmountZero (msEx 1 10 10 (some 0)) ∧
    FrontRunningStrategy.calculate_optimal_position Settings.default
        txAmountZero (msEx 1 10 10 (some 0)) ≤
      Settings.default.trading.execution.max_position_size :=
  optimal_position_clamped_amended Settings.default txAmountZero
    (msEx 1 10 10 (some 0))
    (by
      have harg : (msEx 1 10 10 (some 0)).best_ask * (3/1000) /
          Settings.default.trading.execution.min_profit_threshold =
          ((3 : ℕ) : ℚ) := by
        norm_num [msEx, Settings.default]
      show f64ToU64 ((msEx 1 10 10 (some 0)).best_ask * (3/1000) /
        Settings.default.trading.execution.min_profit_threshold) ≤
        Settings.default.trading.execution.max_position_size
      rw [harg, f64ToU64_natCast]
      norm_num [Settings.default])

theorem cross_foldl_filterMap (minp : ℚ) :
    ∀ (pairs : List (DexRegistry.MarketInfo × DexRegistry.MarketInfo))
      (acc : List DexRegistry.CrossDexOpportunity),
      pairs.foldl
        (fun acc pair =>
          match DexRegistry.calculate_cross_dex_profit pair.1 pair.2 with
          | .ok (profit, direction) =>
            if profit ≥ minp then
              acc ++ [{ source_market := pair.1, target_market := pair.2,
                        profit_percentage := profit, direction := direction }]
            else acc
          | .error _ => acc) acc =
      acc ++ pairs.filterMap (fun pair => cross_pair_step minp pair.1 pair.2)
  | [], acc => by simp
  | pair :: rest, acc => by
    rw [List.foldl_cons, List.filterMap_cons]
    cases hc : DexRegistry.calculate_cross_dex_profit pair.1 pair.2 with
    | error e =>
      simp only [hc, cross_pair_step, cross_foldl_filterMap minp rest acc]
    | ok pd =>
      rcases pd with ⟨profit, direction⟩
      by_cases hp : profit ≥ minp
      · simp only [hc, if_pos hp, cross_pair_step, cross_foldl_filterMap minp rest,
          List.append_assoc, List.singleton_append]
      · simp only [hc, if_neg hp, cross_pair_step, cross_foldl_filterMap minp rest acc]

theorem get_cross_dex_opportunities_eq (markets : List DexRegistry.MarketInfo)
    (minp : ℚ) :
    DexRegistry.get_cross_dex_opportunities markets minp =
      (DexRegistry.ordered_pairs markets).filterMap
        (fun pair => cross_pair_step minp pair.1 pair.2) := by
  unfold DexRegistry.get_cross_dex_opportunities
  rw [cross_foldl_filterMap]
  simp



/-- **C6**: cross-venue detection computes both directional spreads, keeps the
larger with its direction, and includes a pair exactly when that larger
spread (as a percentage) clears the threshold; on the scenario bid/ask
100/101 vs 103/104 the reported profit percentage is `(103/101 − 1)·100 =
200/101 ≈ 1.98`. -/
theorem cross_venue_larger_spread_thresholded :
    (∀ (m1 m2 : DexRegistry.MarketInfo) (p : ℚ) (d : DexRegistry.TradeDirection),
      DexRegistry.calculate_cross_dex_profit m1 m2 = .ok (p, d) →
      ∃ bid1 ask1 bid2 ask2 : ℚ,
        m1.best_price_result = some (bid1, ask1) ∧
        m2.best_price_result = some (bid2, ask2) ∧
        p = max ((bid2 / ask1 - 1) * 100) ((bid1 / ask2 - 1) * 100)) ∧
    (∀ (markets : List DexRegistry.MarketInfo) (minp : ℚ)
      (o : DexRegistry.CrossDexOpportunity),
      o ∈ DexRegistry.get_cross_dex_opportunities markets minp ↔
        (o.source_market, o.target_market) ∈ DexRegistry.ordered_pairs markets ∧
        DexRegistry.calculate_cross_dex_profit o.source_market o.target_market =
          .ok (o.profit_percentage, o.direction) ∧
        o.profit_percentage ≥ minp) ∧
    (DexRegistry.get_cross_dex_opportunities [marketInfoA, marketInfoB] 1 =
      [{ source_market := marketInfoA, target_market := marketInfoB,
         profit_percentage := 200/101, direction := .Market1ToMarket2 }] ∧
     (198/100 : ℚ) < 200/101 ∧ (200/101 : ℚ) < 199/100) := by
  have hc : DexRegistry.calculate_cross_dex_profit marketInfoA marketInfoB =
      .ok (200/101, .Market1ToMarket2) := by
    unfold DexRegistry.calculate_cross_dex_profit
    norm_num [marketInfoA, marketInfoB]
  refine ⟨?_, ?_, ?_, by norm_num, by norm_num⟩
  · intro m1 m2 p d h
    unfold DexRegistry.calculate_cross_dex_profit at h
    cases h1 : m1.best_price_result with
    | none => simp [h1] at h
    | some pr1 =>
      cases h2 : m2.best_price_result with
      | none =>
        rcases pr1 with ⟨bid1, ask1⟩
        simp [h1, h2] at h
      | some pr2 =>
        rcases pr1 with ⟨bid1, ask1⟩
        rcases pr2 with ⟨bid2, ask2⟩
        simp only [h1, h2] at h
        refine ⟨bid1, ask1, bid2, ask2, rfl, rfl, ?_⟩
        split at h
        next hcond =>
          cases h
          exact (max_eq_left hcond.le).symm
        next hcond =>
          cases h
          exact (max_eq_right (not_lt.1 hcond)).symm
  · intro markets minp o
    rw [get_cross_dex_opportunities_eq, List.mem_filterMap]
    constructor
    · rintro ⟨pair, hmem, hstep⟩
      unfold cross_pair_step at hstep
      cases hcp : DexRegistry.calculate_cross_dex_profit pair.1 pair.2 with
      | error e => simp [hcp] at hstep
      | ok pd =>
        rcases pd with ⟨profit, direction⟩
        simp only [hcp] at hstep
        by_cases hp : profit ≥ minp
        · rw [if_pos hp] at hstep
          cases hstep
          exact ⟨hmem, hcp, hp⟩
        · rw [if_neg hp] at hstep
          cases hstep
    · rintro ⟨hmem, hco, hp⟩
      rcases o with ⟨src, tgt, pp, dir⟩
      refine ⟨(src, tgt), hmem, ?_⟩
      show cross_pair_step minp src tgt = some
        { source_market := src, target_market := tgt,
          profit_percentage := pp, direction := dir }
      unfold cross_pair_step
      rw [hco]
      simp only []
      rw [if_pos hp]
  · rw [get_cross_dex_opportunities_eq]
    have hstep : cross_pair_step 1 marketInfoA marketInfoB = some
        { source_market := marketInfoA, target_market := marketInfoB,
          profit_percentage := 200/101, direction := .Market1ToMarket2 } := by
      unfold cross_pair_step
      rw [hc]
      norm_num
    simp [DexRegistry.ordered_pairs, hstep]

/-- Witness for C6: the larger-spread characterization applied at the
concrete scenario markets. -/
theorem cross_venue_larger_spread_thresholded_witness :
    DexRegistry.calculate_cross_dex_profit marketInfoA marketInfoB =
      .ok (200/101, .Market1ToMarket2) ∧
    (∃ bid1 ask1 bid2 ask2 : ℚ,
      marketInfoA.best_price_result = some (bid1, ask1) ∧
      marketInfoB.best_price_result = some (bid2, ask2) ∧
      (200/101 : ℚ) = max ((bid2 / ask1 - 1) * 100) ((bid1 / ask2 - 1) * 100)) := by
  have hc : DexRegistry.calculate_cross_dex_profit marketInfoA marketInfoB =
      .ok (200/101, .Market1ToMarket2) := by
    unfold DexRegistry.calculate_cross_dex_profit
    norm_num [marketInfoA, marketInfoB]
  exact ⟨hc, cross_venue_larger_spread_thresholded.1 marketInfoA marketInfoB
    (200/101) .Market1ToMarket2 hc⟩

theorem sorted_sort_by_profit_desc (l : List ArbitrageOpportunity) :
    (sort_by_profit_desc l).Pairwise
      (fun a b => b.profit_percentage ≤ a.profit_percentage) := by
  unfold sort_by_profit_desc
  have htrans : ∀ (a b c : ArbitrageOpportunity),
      (fun a b : ArbitrageOpportunity =>
        decide (b.profit_percentage ≤ a.profit_percentage)) a b = true →
      (fun a b : ArbitrageOpportunity =>
        decide (b.profit_percentage ≤ a.profit_percentage)) b c = true →
      (fun a b : ArbitrageOpportunity =>
        decide (b.profit_percentage ≤ a.profit_percentage)) a c = true := by
    intro a b c h1 h2
    simp only [decide_eq_true_eq] at h1 h2 ⊢
    exact le_trans h2 h1
  have htotal : ∀ (a b : ArbitrageOpportunity),
      ((fun a b : ArbitrageOpportunity =>
          decide (b.profit_percentage ≤ a.profit_percentage)) a b ||
       (fun a b : ArbitrageOpportunity =>
          decide (b.profit_percentage ≤ a.profit_percentage)) b a) = true := by
    intro a b
    simp only [decide_eq_true_eq, Bool.or_eq_true]
    exact le_total b.profit_percentage a.profit_percentage
  exact (List.sorted_mergeSort htrans htotal l).imp (fun hab => by simpa using hab)

theorem eq_sort_of_bind_ok (m : ArbitrageResult (List ArbitrageOpportunity))
    (l : List ArbitrageOpportunity)
    (h : (do
      let opportunities ← m
      Except.ok (sort_by_profit_desc opportunities) :
        ArbitrageResult (List ArbitrageOpportunity)) = .ok l) :
    ∃ opps, l = sort_by_profit_desc opps := by
  cases m with
  | error e => exact absurd h (by simp [Bind.bind, Except.bind])
  | ok opps =>
    refine ⟨opps, ?_⟩
    have h' : (Except.ok (sort_by_profit_desc opps) :
        ArbitrageResult (List ArbitrageOpportunity)) = .ok l := h
    cases h'
    rfl

/-- **C9**: each of the three strategies returns its opportunity list sorted
in descending order of `profit_percentage` (whenever `analyze` succeeds). -/
theorem analyze_sorted_by_profit_desc (s : Settings)
    (states : List MarketState) (now : Int) (markets : List Pubkey)
    (pending : List FrontRunningStrategy.PendingTransaction)
    (l1 l2 l3 : List ArbitrageOpportunity)
    (h1 : JitLiquidityStrategy.find_jit_opportunities s states now markets = .ok l1)
    (h2 : FlashLoanStrategy.find_flash_loan_opportunities s states now markets = .ok l2)
    (h3 : FrontRunningStrategy.find_front_running_opportunities s states pending now = .ok l3) :
    l1.Pairwise (fun a b => b.profit_percentage ≤ a.profit_percentage) ∧
    l2.Pairwise (fun a b => b.profit_percentage ≤ a.profit_percentage) ∧
    l3.Pairwise (fun a b => b.profit_percentage ≤ a.profit_percentage) := by
  refine ⟨?_, ?_, ?_⟩
  · unfold JitLiquidityStrategy.find_jit_opportunities at h1
    obtain ⟨opps, rfl⟩ := eq_sort_of_bind_ok _ _ h1
    exact sorted_sort_by_profit_desc opps
  · unfold FlashLoanStrategy.find_flash_loan_opportunities at h2
    obtain ⟨opps, rfl⟩ := eq_sort_of_bind_ok _ _ h2
    exact sorted_sort_by_profit_desc opps
  · unfold FrontRunningStrategy.find_front_running_opportunities at h3
    simp only [FrontRunningStrategy.analyze_mempool, arb_bind_ok] at h3
    obtain ⟨opps, rfl⟩ := eq_sort_of_bind_ok _ _ h3
    exact sorted_sort_by_profit_desc opps

/-- Witness for C9: with no markets and no pending transactions all three
strategies succeed with the (trivially sorted) empty list. -/
theorem analyze_sorted_by_profit_desc_witness :
    JitLiquidityStrategy.find_jit_opportunities Settings.default [] 0 [] = .ok [] ∧
    FlashLoanStrategy.find_flash_loan_opportunities Settings.default [] 0 [] = .ok [] ∧
    FrontRunningStrategy.find_front_running_opportunities Settings.default [] [] 0 = .ok [] ∧
    ([] : List ArbitrageOpportunity).Pairwise
      (fun a b => b.profit_percentage ≤ a.profit_percentage) := by
  have hj : JitLiquidityStrategy.find_jit_opportunities Settings.default [] 0 [] = .ok [] := by
    unfold JitLiquidityStrategy.find_jit_opportunities
    simp [List.foldlM, sort_by_profit_desc]
  have hf : FlashLoanStrategy.find_flash_loan_opportunities Settings.default [] 0 [] = .ok [] := by
    unfold FlashLoanStrategy.find_flash_loan_opportunities
    simp [FlashLoanStrategy.distinct_pairs, List.foldlM, sort_by_profit_desc]
  have hr : FrontRunningStrategy.find_front_running_opportunities Settings.default [] [] 0 = .ok [] := by
    unfold FrontRunningStrategy.find_front_running_opportunities
    simp [FrontRunningStrategy.analyze_mempool, arb_bind_ok, List.foldlM,
      sort_by_profit_desc]
  exact ⟨hj, hf, hr,
    (analyze_sorted_by_profit_desc Settings.default [] 0 [] [] [] [] [] hj hf hr).1⟩
